import Mathlib

/-!
The class win::DynamicDataExchange of src/win/dde.cpp.

A shallow embedding of the DDE adapter class.  The adapter object is a record
of its three fields; every method is a function from the object, the state of
the transport (the DDEML library and the peer behind it) and the arguments to
an `Outcome`: the return value, the object afterwards, the transport state
afterwards and the list of DDEML calls made, in order.

The transport is a parameter: a record of response functions over an
arbitrary state type, so a statement quantified over `Transport W` holds for
every transport behaviour.  The text helpers `WstrToStr` and `StrToWstr`
(declared in string.h, not part of dde.cpp) are parameters as well.

Handles (`HSZ`, `HCONV`, `HDDEDATA`) and the instance identifier are natural
numbers, `0` being the null handle.  Text is a list of code units, bytes are a
list of numbers below 256.
-/

namespace win

/-! ## Platform types and constants -/

/-- String handle; `0` is the null handle. -/
abbrev HSZ := Nat

/-- Conversation handle; `0` is `nullptr`. -/
abbrev HCONV := Nat

/-- Data handle; `0` is the null handle. -/
abbrev HDDEDATA := Nat

/-- Contents of a byte buffer. -/
abbrev Bytes := List Nat

/-- Contents of a `std::wstring`: its wide units, terminator not included. -/
abbrev WString := List Nat

/-- Windows SDK value of `TRUE`. -/
def TRUE : Nat := 1

/-- Windows SDK value (ddeml.h): `0x0060 | XCLASS_BOOL | XTYPF_NOBLOCK`. -/
def XTYP_CONNECT : Nat := 0x1062

/-- Windows SDK value (ddeml.h): `0x0090 | XCLASS_FLAGS`. -/
def XTYP_POKE : Nat := 0x4090

/-- Windows SDK value (ddeml.h): `0x00B0 | XCLASS_DATA`. -/
def XTYP_REQUEST : Nat := 0x20B0

/-- Windows SDK value (ddeml.h): `0x0050 | XCLASS_FLAGS`. -/
def XTYP_EXECUTE : Nat := 0x4050

/-- Windows SDK value (ddeml.h) of the positive acknowledgement flag. -/
def DDE_FACK : Nat := 0x8000

/-- Windows SDK clipboard format of narrow text. -/
def CF_TEXT : Nat := 1

/-- Windows SDK clipboard format of wide text. -/
def CF_UNICODETEXT : Nat := 13

/-- Windows SDK value (ddeml.h) of the ANSI code page tag. -/
def CP_WINANSI : Nat := 1004

/-- Windows SDK value (ddeml.h) of the Unicode code page tag. -/
def CP_WINUNICODE : Nat := 1200

/-- Size in bytes of a `WCHAR`. -/
def sizeofWCHAR : Nat := 2

/-! ## The transport and its call log -/

/-- One DDEML call as the adapter issues it: the arguments it passed and, for
the calls whose result the adapter reads, the value the transport returned. -/
inductive Call where
  | DdeInitializeW (pidInst afCmd newInst : Nat)
  | DdeInitializeA (pidInst afCmd newInst : Nat)
  | DdeUninitialize (idInst : Nat)
  | DdeCreateStringHandleW (idInst : Nat) (psz : WString) (codePage : Nat) (ret : HSZ)
  | DdeCreateStringHandleA (idInst : Nat) (psz : Bytes) (codePage : Nat) (ret : HSZ)
  | DdeFreeStringHandle (idInst : Nat) (hsz : HSZ)
  | DdeConnect (idInst : Nat) (hszService hszTopic : HSZ) (ret : HCONV)
  | DdeDisconnect (hConv : HCONV)
  | DdeClientTransaction (pData : Bytes) (cbData : Nat) (hConv : HCONV) (hszItem : HSZ)
      (wFmt wType dwTimeout : Nat) (ret : HDDEDATA)
  | DdeGetData (hData : HDDEDATA) (cbMax cbOff : Nat)
  | DdeNameService (idInst : Nat) (hsz1 hsz2 : HSZ) (afCmd : Nat) (ret : HDDEDATA)
  | DdeAccessData (hData : HDDEDATA)
  | DdeUnaccessData (hData : HDDEDATA)
  deriving DecidableEq, Repr

/-- The transport: what each DDEML entry point answers in a transport state
`W`, and the state it leaves.  `DdeInitializeW/A` answer the value found in
`*pidInst` after the call; `DdeGetData` answers the bytes it has available for
the destination buffer. -/
structure Transport (W : Type) where
  DdeInitializeW : W → Nat → Nat → Nat × W
  DdeInitializeA : W → Nat → Nat → Nat × W
  DdeUninitialize : W → Nat → W
  DdeCreateStringHandleW : W → Nat → WString → Nat → HSZ × W
  DdeCreateStringHandleA : W → Nat → Bytes → Nat → HSZ × W
  DdeFreeStringHandle : W → Nat → HSZ → W
  DdeConnect : W → Nat → HSZ → HSZ → HCONV × W
  DdeDisconnect : W → HCONV → W
  DdeClientTransaction : W → Bytes → Nat → HCONV → HSZ → Nat → Nat → Nat → HDDEDATA × W
  DdeGetData : W → HDDEDATA → Nat → Nat → Bytes × W
  DdeNameService : W → Nat → HSZ → HSZ → Nat → HDDEDATA × W

/-- The text helpers of string.h, which dde.cpp calls and does not define. -/
structure Codec where
  WstrToStr : WString → Bytes
  StrToWstr : Bytes → WString

/-! ## The adapter object -/

/-- The fields of `win::DynamicDataExchange`. -/
structure DynamicDataExchange where
  conversation_ : HCONV
  instance_ : Nat
  is_unicode_ : Bool
  deriving DecidableEq, Repr

/-- What a method leaves behind: return value, object, transport state and
the DDEML calls made, oldest first. -/
structure Outcome (W : Type) (α : Type) where
  ret : α
  obj : DynamicDataExchange
  world : W
  calls : List Call

/-- The constructor: no conversation, no instance, narrow text. -/
def DynamicDataExchange.new : DynamicDataExchange :=
  ⟨0, 0, false⟩

/-- The bytes a C string pointer designates: everything before the first zero. -/
def cstr (mem : List Nat) : List Nat :=
  mem.takeWhile (fun b => b != 0)

/-- Little-endian bytes of a sequence of wide units. -/
def wideBytes : WString → Bytes
  | [] => []
  | u :: us => (u % 256) :: (u / 256 % 256) :: wideBytes us

/-- `DynamicDataExchange::Initialize` (dde.cpp 45-55). -/
def Initialize {W : Type} (T : Transport W) (self : DynamicDataExchange) (w : W)
    (afCmd : Nat) (unicode : Bool) : Outcome W Bool :=
  if unicode then
    let r := T.DdeInitializeW w self.instance_ afCmd
    ⟨r.1 != 0, ⟨self.conversation_, r.1, unicode⟩, r.2,
      [Call.DdeInitializeW self.instance_ afCmd r.1]⟩
  else
    let r := T.DdeInitializeA w self.instance_ afCmd
    ⟨r.1 != 0, ⟨self.conversation_, r.1, unicode⟩, r.2,
      [Call.DdeInitializeA self.instance_ afCmd r.1]⟩

/-- `DynamicDataExchange::UnInitialize` (dde.cpp 57-62). -/
def UnInitialize {W : Type} (T : Transport W) (self : DynamicDataExchange) (w : W) :
    Outcome W Unit :=
  if self.instance_ != 0 then
    ⟨(), ⟨self.conversation_, 0, self.is_unicode_⟩, T.DdeUninitialize w self.instance_,
      [Call.DdeUninitialize self.instance_]⟩
  else
    ⟨(), self, w, []⟩

/-- `DynamicDataExchange::IsAvailable` (dde.cpp 118-120). -/
def IsAvailable (self : DynamicDataExchange) : Bool :=
  self.instance_ != 0

/-- `DynamicDataExchange::CreateStringHandle` (dde.cpp 131-137): the handle,
the transport state afterwards and the call made.  The DDEML entry points take
a C string pointer, so they see the text up to its first zero unit. -/
def CreateStringHandle {W : Type} (T : Transport W) (C : Codec) (self : DynamicDataExchange)
    (w : W) (str : WString) : HSZ × W × List Call :=
  if self.is_unicode_ then
    let r := T.DdeCreateStringHandleW w self.instance_ (cstr str) CP_WINUNICODE
    (r.1, r.2, [Call.DdeCreateStringHandleW self.instance_ (cstr str) CP_WINUNICODE r.1])
  else
    let r := T.DdeCreateStringHandleA w self.instance_ (cstr (C.WstrToStr str)) CP_WINANSI
    (r.1, r.2,
      [Call.DdeCreateStringHandleA self.instance_ (cstr (C.WstrToStr str)) CP_WINANSI r.1])

/-- `DynamicDataExchange::FreeStringHandle` (dde.cpp 139-142). -/
def FreeStringHandle {W : Type} (T : Transport W) (self : DynamicDataExchange) (w : W)
    (str : HSZ) : W × List Call :=
  if str != 0 then
    (T.DdeFreeStringHandle w self.instance_ str, [Call.DdeFreeStringHandle self.instance_ str])
  else
    (w, [])

/-- `DynamicDataExchange::Connect` (dde.cpp 66-80). -/
def Connect {W : Type} (T : Transport W) (C : Codec) (self : DynamicDataExchange) (w : W)
    (service topic : WString) : Outcome W Bool :=
  if self.instance_ = 0 then
    ⟨false, self, w, []⟩
  else
    let hszService := CreateStringHandle T C self w service
    let hszTopic := CreateStringHandle T C self hszService.2.1 topic
    let conv := T.DdeConnect hszTopic.2.1 self.instance_ hszService.1 hszTopic.1
    let f1 := FreeStringHandle T self conv.2 hszTopic.1
    let f2 := FreeStringHandle T self f1.1 hszService.1
    ⟨conv.1 != 0, ⟨conv.1, self.instance_, self.is_unicode_⟩, f2.1,
      hszService.2.2 ++ hszTopic.2.2 ++
        [Call.DdeConnect self.instance_ hszService.1 hszTopic.1 conv.1] ++ f1.2 ++ f2.2⟩

/-- `DynamicDataExchange::Disconnect` (dde.cpp 82-87). -/
def Disconnect {W : Type} (T : Transport W) (self : DynamicDataExchange) (w : W) :
    Outcome W Unit :=
  if self.conversation_ != 0 then
    ⟨(), ⟨0, self.instance_, self.is_unicode_⟩, T.DdeDisconnect w self.conversation_,
      [Call.DdeDisconnect self.conversation_]⟩
  else
    ⟨(), self, w, []⟩

/-- The bytes `pData` designates when the pointer is taken (dde.cpp 98-99): in
wide mode the units of `data` followed by the null unit, in narrow mode the
bytes of `WstrToStr(data)` followed by the null byte.  In narrow mode the
pointer is into a temporary string that is destroyed at the end of that
statement, before `DdeClientTransaction` runs: the source does not determine
what the transport finds there, and the log records the bytes the temporary
held.  Nothing below is derived from the payload bytes in narrow mode beyond
recording them. -/
def pDataOf (C : Codec) (self : DynamicDataExchange) (data : WString) : Bytes :=
  if self.is_unicode_ then wideBytes data ++ [0, 0] else C.WstrToStr data ++ [0]

/-- The `cbData` argument (dde.cpp 100-101): a `size_t` expression over
`data.size()`, the number of wide units, cast to a 32-bit `DWORD`. -/
def cbDataOf (self : DynamicDataExchange) (data : WString) : Nat :=
  (if self.is_unicode_ then (data.length + 1) * sizeofWCHAR else data.length + 1) % 2 ^ 32

/-- The `wFmt` argument (dde.cpp 102). -/
def wFmtOf (self : DynamicDataExchange) : Nat :=
  if self.is_unicode_ then CF_UNICODETEXT else CF_TEXT

/-- The memory at `szResult` after `::DdeGetData(hData, szResult, 255, 0)`
(dde.cpp 110-111).  `stack` is the memory found at the address of the
uninitialised local array: its first 255 bytes are the array, the rest is what
lies behind it.  The transport overwrites at most the 255 bytes it is allowed. -/
def szResultOf {W : Type} (T : Transport W) (w : W) (hData : HDDEDATA) (stack : Bytes) :
    Bytes :=
  ((T.DdeGetData w hData 255 0).1.take 255) ++
    stack.drop ((T.DdeGetData w hData 255 0).1.take 255).length

/-- `DynamicDataExchange::ClientTransaction` (dde.cpp 91-116).  `output` is the
pointer argument: `none` for a null pointer, otherwise the text it points to.
The return value pairs the `BOOL` with the pointee afterwards.  `StrToWstr`
receives `szResult` as a C string: the bytes before the first zero found from
the start of the array on. -/
def ClientTransaction {W : Type} (T : Transport W) (C : Codec) (self : DynamicDataExchange)
    (w : W) (item data : WString) (output : Option WString) (wType : Nat) (stack : Bytes) :
    Outcome W (Bool × Option WString) :=
  let hszItem : HSZ × W × List Call :=
    if wType ≠ XTYP_EXECUTE then CreateStringHandle T C self w item else (0, w, [])
  let pData := pDataOf C self data
  let cbData := cbDataOf self data
  let wFmt := wFmtOf self
  let hData := T.DdeClientTransaction hszItem.2.1 pData cbData self.conversation_ hszItem.1
    wFmt wType 3000
  let f := FreeStringHandle T self hData.2 hszItem.1
  let call := Call.DdeClientTransaction pData cbData self.conversation_ hszItem.1 wFmt wType
    3000 hData.1
  match output with
  | some _ =>
    ⟨(hData.1 != 0, some (C.StrToWstr (cstr (szResultOf T f.1 hData.1 stack)))), self,
      (T.DdeGetData f.1 hData.1 255 0).2,
      hszItem.2.2 ++ [call] ++ f.2 ++ [Call.DdeGetData hData.1 255 0]⟩
  | none =>
    ⟨(hData.1 != 0, none), self, f.1, hszItem.2.2 ++ [call] ++ f.2⟩

/-- `DynamicDataExchange::NameService` (dde.cpp 122-127). -/
def NameService {W : Type} (T : Transport W) (C : Codec) (self : DynamicDataExchange) (w : W)
    (service : WString) (afCmd : Nat) : Outcome W Bool :=
  let hszService := CreateStringHandle T C self w service
  let result := T.DdeNameService hszService.2.1 self.instance_ hszService.1 0 afCmd
  let f := FreeStringHandle T self result.2 hszService.1
  ⟨result.1 != 0, self, f.1,
    hszService.2.2 ++ [Call.DdeNameService self.instance_ hszService.1 0 afCmd result.1] ++ f.2⟩

/-- What one run of the callback produces: the code handed back to DDEML, the
DDEML calls made and the texts passed to `OutputDebugStringA`, each oldest
first. -/
structure CallbackResult where
  code : Nat
  calls : List Call
  debugOut : List String
  deriving DecidableEq, Repr

/-- The text of a narrow C string found in memory. -/
def textOf (mem : Bytes) : String :=
  String.mk ((cstr mem).map Char.ofNat)

/-- `DynamicDataExchange::DdeCallback` (dde.cpp 144-199), in both build
variants: `debug` tells whether `_DEBUG` is defined.  `access hdata` is what
`DdeAccessData(hdata, &cb)` answers: `none` for a null pointer, otherwise the
memory found at the pointer.  The result is `none` where the source has
undefined behaviour: at line 171 the statement `str += (LPCSTR)lpData` stands
outside the `if (lpData)` and appends a null pointer when `lpData` is null.
`sz1` and `sz2` are zero-filled and never written, so `"Topic: " + *sz1` is the
literal itself and `str += sz1` appends nothing. -/
def DdeCallback (debug : Bool) (access : HDDEDATA → Option Bytes) (uType _uFmt : Nat)
    (_hconv : HCONV) (_hsz1 _hsz2 : HSZ) (hdata : HDDEDATA) (_dwData1 _dwData2 : Nat) :
    Option CallbackResult :=
  if uType = XTYP_CONNECT then
    some ⟨TRUE, [], ["[CONNECT]\n"]⟩
  else if uType = XTYP_POKE then
    let lpData : Option Bytes := if hdata != 0 then access hdata else none
    let accessCalls := if hdata != 0 then [Call.DdeAccessData hdata] else []
    let unaccessCalls := if hdata != 0 then [Call.DdeUnaccessData hdata] else []
    if debug then
      match lpData with
      | some mem =>
        some ⟨DDE_FACK, accessCalls ++ unaccessCalls,
          ["[POKE]" ++ "Topic: " ++ " - Item: " ++ " - Data: " ++ textOf mem ++ "\n"]⟩
      | none => none
    else
      some ⟨DDE_FACK, accessCalls ++ unaccessCalls, []⟩
  else if uType = XTYP_REQUEST then
    if debug then
      some ⟨0, [], ["[REQUEST] " ++ "Topic: " ++ " - Item: " ++ "\n"]⟩
    else
      some ⟨0, [], []⟩
  else
    some ⟨0, [], []⟩

/-! ## Sequences of lifecycle calls -/

/-- A lifecycle call on the adapter, with its arguments. -/
inductive Op where
  | Initialize (afCmd : Nat) (unicode : Bool)
  | UnInitialize
  | Connect (service topic : WString)
  | Disconnect
  deriving DecidableEq, Repr

/-- Perform one lifecycle call. -/
def stepOp {W : Type} (T : Transport W) (C : Codec) (st : DynamicDataExchange × W) :
    Op → DynamicDataExchange × W
  | Op.Initialize afCmd unicode =>
    ((Initialize T st.1 st.2 afCmd unicode).obj, (Initialize T st.1 st.2 afCmd unicode).world)
  | Op.UnInitialize => ((UnInitialize T st.1 st.2).obj, (UnInitialize T st.1 st.2).world)
  | Op.Connect service topic =>
    ((Connect T C st.1 st.2 service topic).obj, (Connect T C st.1 st.2 service topic).world)
  | Op.Disconnect => ((Disconnect T st.1 st.2).obj, (Disconnect T st.1 st.2).world)

/-- The adapter and transport state reached from a freshly constructed adapter
by a sequence of lifecycle calls. -/
def run {W : Type} (T : Transport W) (C : Codec) (w : W) (ops : List Op) :
    DynamicDataExchange × W :=
  ops.foldl (stepOp T C) (DynamicDataExchange.new, w)

/-! ## The string handle discipline, as a check on a call log -/

/-- Progress of the check: the non-null handles created and not yet freed, and
whether the call that uses the handles has been made. -/
structure HszTrack where
  live : List HSZ
  used : Bool

/-- One step of the check; `none` when the call breaks the discipline.  A create
call makes its non-null result live.  The connect, transaction and name service
calls may pass only null or live handles, and mark the handles as used.  A free
call must name a non-null live handle, after the use, and ends its life. -/
def HszTrack.step (t : HszTrack) : Call → Option HszTrack
  | Call.DdeCreateStringHandleW _ _ _ ret =>
    some ⟨if ret = 0 then t.live else ret :: t.live, t.used⟩
  | Call.DdeCreateStringHandleA _ _ _ ret =>
    some ⟨if ret = 0 then t.live else ret :: t.live, t.used⟩
  | Call.DdeConnect _ hszService hszTopic _ =>
    if (hszService = 0 ∨ hszService ∈ t.live) ∧ (hszTopic = 0 ∨ hszTopic ∈ t.live) then
      some ⟨t.live, true⟩
    else none
  | Call.DdeClientTransaction _ _ _ hszItem _ _ _ _ =>
    if hszItem = 0 ∨ hszItem ∈ t.live then some ⟨t.live, true⟩ else none
  | Call.DdeNameService _ hsz1 hsz2 _ _ =>
    if (hsz1 = 0 ∨ hsz1 ∈ t.live) ∧ (hsz2 = 0 ∨ hsz2 ∈ t.live) then
      some ⟨t.live, true⟩
    else none
  | Call.DdeFreeStringHandle _ hsz =>
    if hsz ≠ 0 ∧ hsz ∈ t.live ∧ t.used = true then some ⟨t.live.erase hsz, t.used⟩ else none
  | _ => some t

/-- Run the check over a call log. -/
def HszTrack.steps (t : HszTrack) : List Call → Option HszTrack
  | [] => some t
  | c :: cs =>
    match t.step c with
    | some t1 => t1.steps cs
    | none => none

/-- A call log keeps the string handle discipline: every non-null handle a
create call returned is freed exactly once, after the call that used it and
before the log ends, and nothing else is freed. -/
def hszDiscipline (calls : List Call) : Bool :=
  match (HszTrack.mk [] false).steps calls with
  | some t => t.live.isEmpty
  | none => false

/-- Whether a call is a string handle creation. -/
def Call.isCreate : Call → Bool
  | Call.DdeCreateStringHandleW _ _ _ _ => true
  | Call.DdeCreateStringHandleA _ _ _ _ => true
  | _ => false

/-- Whether a call is a string handle release. -/
def Call.isFree : Call → Bool
  | Call.DdeFreeStringHandle _ _ => true
  | _ => false

/-! ## A concrete transport and concrete text helpers -/

/-- A well-behaved peer holding one data object `payload`.  Nothing works on
instance 0; string handles are interned as the text length plus one; a connect
on a live instance yields conversation 7; a transaction on a null conversation
yields no data handle, any other yields data handle 9; reading a data handle
copies `payload` from the offset on, at most `cbMax` bytes, and nothing for a
null handle. -/
def peer (payload : Bytes) : Transport Unit where
  DdeInitializeW := fun _ _ _ => (1, ())
  DdeInitializeA := fun _ _ _ => (1, ())
  DdeUninitialize := fun _ _ => ()
  DdeCreateStringHandleW := fun _ idInst psz _ => (if idInst = 0 then 0 else psz.length + 1, ())
  DdeCreateStringHandleA := fun _ idInst psz _ => (if idInst = 0 then 0 else psz.length + 1, ())
  DdeFreeStringHandle := fun _ _ _ => ()
  DdeConnect := fun _ idInst _ _ => (if idInst = 0 then 0 else 7, ())
  DdeDisconnect := fun _ _ => ()
  DdeClientTransaction := fun _ _ _ hConv _ _ _ _ => (if hConv = 0 then 0 else 9, ())
  DdeGetData := fun _ hData cbMax cbOff =>
    (if hData = 0 then [] else (payload.drop cbOff).take cbMax, ())
  DdeNameService := fun _ idInst _ _ _ => (if idInst = 0 then 0 else 1, ())

/-- A peer that grants one conversation and refuses every later connect.  Its
state counts the connect calls received; apart from that it answers as `peer`
does with an empty data object. -/
def fickle : Transport Nat where
  DdeInitializeW := fun n _ _ => (1, n)
  DdeInitializeA := fun n _ _ => (1, n)
  DdeUninitialize := fun n _ => n
  DdeCreateStringHandleW := fun n idInst psz _ => (if idInst = 0 then 0 else psz.length + 1, n)
  DdeCreateStringHandleA := fun n idInst psz _ => (if idInst = 0 then 0 else psz.length + 1, n)
  DdeFreeStringHandle := fun n _ _ => n
  DdeConnect := fun n idInst _ _ => (if idInst = 0 then 0 else if n = 0 then 7 else 0, n + 1)
  DdeDisconnect := fun n _ => n
  DdeClientTransaction := fun n _ _ hConv _ _ _ _ => (if hConv = 0 then 0 else 9, n)
  DdeGetData := fun n _ _ _ => ([], n)
  DdeNameService := fun n idInst _ _ _ => (if idInst = 0 then 0 else 1, n)

/-- UTF-8 bytes of one unit of the basic plane. -/
def utf8Unit (u : Nat) : Bytes :=
  if u < 0x80 then [u]
  else if u < 0x800 then [0xC0 + u / 64, 0x80 + u % 64]
  else [0xE0 + u / 4096, 0x80 + u / 64 % 64, 0x80 + u % 64]

/-- UTF-8 bytes of a text of the basic plane. -/
def utf8Encode : WString → Bytes
  | [] => []
  | u :: us => utf8Unit u ++ utf8Encode us

/-- Units of a UTF-8 byte sequence of the basic plane. -/
def utf8Decode : Bytes → WString
  | [] => []
  | b0 :: rest =>
    if b0 < 0x80 then b0 :: utf8Decode rest
    else
      match rest with
      | [] => [b0]
      | b1 :: rest1 =>
        if b0 < 0xE0 then ((b0 - 0xC0) * 64 + (b1 - 0x80)) :: utf8Decode rest1
        else
          match rest1 with
          | [] => [b0]
          | b2 :: rest2 =>
            ((b0 - 0xE0) * 4096 + (b1 - 0x80) * 64 + (b2 - 0x80)) :: utf8Decode rest2

/-- Text helpers converting through UTF-8. -/
def utf8 : Codec :=
  ⟨utf8Encode, utf8Decode⟩

/-- Text helpers converting through Latin-1: one byte per unit. -/
def latin1 : Codec :=
  ⟨fun s => s.map (fun u => u % 256), fun b => b⟩

/-! ## Theorems -/

/-- In either build variant, whenever the callback returns, its code depends
on the event kind alone: XTYP_CONNECT gives TRUE, XTYP_POKE gives DDE_FACK,
every other kind, XTYP_REQUEST included, gives 0.  Compiled without _DEBUG it
always returns. -/
theorem DdeCallback_code (debug : Bool) (access : HDDEDATA → Option Bytes) (uType uFmt : Nat)
    (hconv : HCONV) (hsz1 hsz2 : HSZ) (hdata : HDDEDATA) (dwData1 dwData2 : Nat) :
    (∀ r, DdeCallback debug access uType uFmt hconv hsz1 hsz2 hdata dwData1 dwData2 = some r →
      r.code = (if uType = XTYP_CONNECT then TRUE
        else if uType = XTYP_POKE then DDE_FACK
        else 0)) ∧
    DdeCallback false access uType uFmt hconv hsz1 hsz2 hdata dwData1 dwData2 =
      some ⟨if uType = XTYP_CONNECT then TRUE else if uType = XTYP_POKE then DDE_FACK else 0,
        if uType = XTYP_POKE ∧ hdata ≠ 0 then
          [Call.DdeAccessData hdata, Call.DdeUnaccessData hdata]
        else [],
        if uType = XTYP_CONNECT then ["[CONNECT]\n"] else []⟩ := by
  have hpc : XTYP_POKE ≠ XTYP_CONNECT := by decide
  constructor
  · intro r hr
    by_cases h1 : uType = XTYP_CONNECT
    · simp only [DdeCallback, h1, if_true, Option.some.injEq] at hr
      simp [← hr, h1]
    · by_cases h2 : uType = XTYP_POKE
      · subst h2
        simp only [DdeCallback, hpc, if_true, if_false] at hr
        simp only [hpc, if_true, if_false]
        cases debug
        · simp only [Bool.false_eq_true, if_false, Option.some.injEq] at hr
          rw [← hr]
        · simp only [if_true] at hr
          cases hl : (if (hdata != 0) = true then access hdata else none) with
          | none => rw [hl] at hr; cases hr
          | some mem =>
            rw [hl] at hr
            simp only [Option.some.injEq] at hr
            rw [← hr]
      · simp only [DdeCallback, h1, h2, if_false] at hr
        simp only [h1, h2, if_false]
        split_ifs at hr <;> cases hr <;> rfl
  · by_cases h1 : uType = XTYP_CONNECT
    · subst h1
      simp [DdeCallback, Ne.symm hpc]
    · by_cases h2 : uType = XTYP_POKE
      · subst h2
        by_cases h0 : hdata = 0 <;> simp [DdeCallback, hpc, h0]
      · by_cases h3 : uType = XTYP_REQUEST
        · subst h3
          simp [DdeCallback, h1, h2]
        · simp [DdeCallback, h1, h2, h3]

/-- C8, evaluated in the build with _DEBUG on a Poke event that carries no data
handle: the callback does not return DDE_FACK.  `lpData` stays null and line
171 appends it to the log text, which is undefined behaviour; the same happens
for a data handle that `DdeAccessData` cannot open.  Without _DEBUG the same
event is acknowledged, and with _DEBUG a Poke whose data is accessible is
acknowledged as well. -/
theorem DdeCallback_debug_poke_null (access : HDDEDATA → Option Bytes) (uFmt : Nat)
    (hconv : HCONV) (hsz1 hsz2 : HSZ) (dwData1 dwData2 : Nat) :
    DdeCallback true access XTYP_POKE uFmt hconv hsz1 hsz2 0 dwData1 dwData2 = none ∧
    DdeCallback true (fun _ => none) XTYP_POKE uFmt hconv hsz1 hsz2 5 dwData1 dwData2 = none ∧
    DdeCallback false access XTYP_POKE uFmt hconv hsz1 hsz2 0 dwData1 dwData2
      = some ⟨DDE_FACK, [], []⟩ ∧
    DdeCallback true (fun _ => some [0x68, 0x69, 0]) XTYP_POKE uFmt hconv hsz1 hsz2 5
      dwData1 dwData2
      = some ⟨DDE_FACK, [Call.DdeAccessData 5, Call.DdeUnaccessData 5],
          ["[POKE]Topic:  - Item:  - Data: hi\n"]⟩ := by
  refine ⟨?_, ?_, ?_, ?_⟩
  · simp [DdeCallback, XTYP_POKE, XTYP_CONNECT]
  · simp [DdeCallback, XTYP_POKE, XTYP_CONNECT]
  · simp [DdeCallback, XTYP_POKE, XTYP_CONNECT]
  · have ht : textOf [0x68, 0x69, 0] = "hi" := by decide
    simp [DdeCallback, XTYP_POKE, XTYP_CONNECT, ht]

/-- C9: UnInitialize is idempotent.  A second call in a row leaves the object
and the transport as the first call left them, makes no transport call, and
IsAvailable is false after either call. -/
theorem UnInitialize_idempotent {W : Type} (T : Transport W) (self : DynamicDataExchange)
    (w : W) :
    (UnInitialize T (UnInitialize T self w).obj (UnInitialize T self w).world).obj
        = (UnInitialize T self w).obj ∧
    (UnInitialize T (UnInitialize T self w).obj (UnInitialize T self w).world).world
        = (UnInitialize T self w).world ∧
    (UnInitialize T (UnInitialize T self w).obj (UnInitialize T self w).world).calls = [] ∧
    IsAvailable (UnInitialize T self w).obj = false ∧
    IsAvailable
      (UnInitialize T (UnInitialize T self w).obj (UnInitialize T self w).world).obj = false := by
  have h1 : (UnInitialize T self w).obj.instance_ = 0 := by
    unfold UnInitialize
    split_ifs with h
    · rfl
    · simpa using h
  have h2 : ∀ (s : DynamicDataExchange) (v : W), s.instance_ = 0 →
      UnInitialize T s v = ⟨(), s, v, []⟩ := by
    intro s v hs
    simp [UnInitialize, hs]
  rw [h2 _ _ h1]
  simp [IsAvailable, h1]

/-! ### Shape of the call logs -/

/-- The calls of CreateStringHandle: one create call carrying the handle it
returns. -/
theorem CreateStringHandle_calls {W : Type} (T : Transport W) (C : Codec)
    (self : DynamicDataExchange) (w : W) (str : WString) :
    (CreateStringHandle T C self w str).2.2 =
      [if self.is_unicode_ then
        Call.DdeCreateStringHandleW self.instance_ (cstr str) CP_WINUNICODE
          (CreateStringHandle T C self w str).1
      else
        Call.DdeCreateStringHandleA self.instance_ (cstr (C.WstrToStr str)) CP_WINANSI
          (CreateStringHandle T C self w str).1] := by
  unfold CreateStringHandle
  split_ifs <;> rfl

/-- The calls of FreeStringHandle: one free call for a non-null handle, none
for the null handle. -/
theorem FreeStringHandle_calls {W : Type} (T : Transport W) (self : DynamicDataExchange)
    (w : W) (str : HSZ) :
    (FreeStringHandle T self w str).2 =
      if str = 0 then [] else [Call.DdeFreeStringHandle self.instance_ str] := by
  unfold FreeStringHandle
  by_cases h : str = 0 <;> simp [h]

/-- Running the check over a log that starts with an accepted call. -/
theorem HszTrack.steps_cons_of_step {t t1 : HszTrack} {c : Call} (cs : List Call)
    (h : t.step c = some t1) : t.steps (c :: cs) = t1.steps cs := by
  simp only [HszTrack.steps, h]

/-- Running the check over two logs in a row. -/
theorem HszTrack.steps_append (a b : List Call) (t : HszTrack) :
    t.steps (a ++ b) = (t.steps a).bind (fun t1 => t1.steps b) := by
  induction a generalizing t with
  | nil => simp [HszTrack.steps]
  | cons c cs ih =>
    simp only [List.cons_append, HszTrack.steps]
    cases hs : t.step c with
    | none => simp
    | some t1 => simpa using ih t1

/-- The check accepts the release of a live non-null handle after the use. -/
theorem HszTrack.step_free (l : List HSZ) (i h : Nat) (h0 : h ≠ 0) (hl : h ∈ l) :
    HszTrack.step ⟨l, true⟩ (Call.DdeFreeStringHandle i h) = some ⟨l.erase h, true⟩ := by
  simp [HszTrack.step, h0, hl]

/-- The check accepts two creates, a use of both handles and the two frees in
reverse order, each free present exactly when its handle is non-null. -/
theorem hszDiscipline_two (c1 c2 use : Call) (i h1 h2 : Nat)
    (hc1 : HszTrack.step ⟨[], false⟩ c1 = some ⟨if h1 = 0 then [] else [h1], false⟩)
    (hc2 : HszTrack.step ⟨if h1 = 0 then [] else [h1], false⟩ c2 =
      some ⟨if h2 = 0 then (if h1 = 0 then [] else [h1])
        else h2 :: (if h1 = 0 then [] else [h1]), false⟩)
    (hu : ∀ l : List HSZ, (h1 = 0 ∨ h1 ∈ l) → (h2 = 0 ∨ h2 ∈ l) →
      HszTrack.step ⟨l, false⟩ use = some ⟨l, true⟩) :
    hszDiscipline ([c1] ++ [c2] ++ [use] ++
      (if h2 = 0 then [] else [Call.DdeFreeStringHandle i h2]) ++
      (if h1 = 0 then [] else [Call.DdeFreeStringHandle i h1])) = true := by
  unfold hszDiscipline
  simp only [List.singleton_append, List.cons_append, List.nil_append]
  rw [HszTrack.steps_cons_of_step _ hc1, HszTrack.steps_cons_of_step _ hc2]
  by_cases e1 : h1 = 0 <;> by_cases e2 : h2 = 0
  · rw [HszTrack.steps_cons_of_step _ (hu _ (Or.inl e1) (Or.inl e2))]
    simp [e1, e2, HszTrack.steps]
  · rw [HszTrack.steps_cons_of_step _ (hu _ (Or.inl e1) (Or.inr (by simp [e1, e2])))]
    simp only [e1, e2, if_true, if_false, List.append_nil, List.singleton_append]
    rw [HszTrack.steps_cons_of_step _ (HszTrack.step_free _ i h2 e2 (by simp))]
    simp [HszTrack.steps]
  · rw [HszTrack.steps_cons_of_step _ (hu _ (Or.inr (by simp [e1, e2])) (Or.inl e2))]
    simp only [e1, e2, if_true, if_false, List.nil_append]
    rw [HszTrack.steps_cons_of_step _ (HszTrack.step_free _ i h1 e1 (by simp))]
    simp [HszTrack.steps]
  · rw [HszTrack.steps_cons_of_step _ (hu _ (Or.inr (by simp [e1, e2])) (Or.inr (by simp [e2])))]
    simp only [e1, e2, if_false, List.singleton_append]
    rw [HszTrack.steps_cons_of_step _ (HszTrack.step_free _ i h2 e2 (by simp))]
    rw [HszTrack.steps_cons_of_step _ (HszTrack.step_free _ i h1 e1 (by simp))]
    simp [HszTrack.steps]

/-- The check accepts one optional create, a use of its handle, the free
present exactly when the handle is non-null, and trailing calls that touch no
string handle. -/
theorem hszDiscipline_one (pre : List Call) (use : Call) (i h : Nat) (post : List Call)
    (hpre : HszTrack.steps ⟨[], false⟩ pre = some ⟨if h = 0 then [] else [h], false⟩)
    (hu : ∀ l : List HSZ, (h = 0 ∨ h ∈ l) → HszTrack.step ⟨l, false⟩ use = some ⟨l, true⟩)
    (hpost : HszTrack.steps ⟨[], true⟩ post = some ⟨[], true⟩) :
    hszDiscipline (pre ++ [use] ++
      (if h = 0 then [] else [Call.DdeFreeStringHandle i h]) ++ post) = true := by
  unfold hszDiscipline
  simp only [List.append_assoc, HszTrack.steps_append, hpre, Option.some_bind,
    List.singleton_append]
  by_cases e : h = 0
  · rw [HszTrack.steps_cons_of_step _ (hu _ (Or.inl e))]
    simp [e, HszTrack.steps, hpost]
  · rw [HszTrack.steps_cons_of_step _ (hu _ (Or.inr (by simp [e])))]
    simp only [e, if_false]
    rw [HszTrack.steps_cons_of_step _ (HszTrack.step_free _ i h e (by simp))]
    simp [HszTrack.steps, hpost]

/-- The check on a create call: the handle becomes live when it is non-null. -/
theorem HszTrack.step_create {W : Type} (T : Transport W) (C : Codec)
    (self : DynamicDataExchange) (w : W) (str : WString) (l : List HSZ) (u : Bool) (c : Call)
    (hc : (CreateStringHandle T C self w str).2.2 = [c]) :
    HszTrack.step ⟨l, u⟩ c =
      some ⟨if (CreateStringHandle T C self w str).1 = 0 then l
        else (CreateStringHandle T C self w str).1 :: l, u⟩ := by
  rw [CreateStringHandle_calls] at hc
  have hc1 := List.singleton_inj.mp hc
  rw [← hc1]
  cases self.is_unicode_ <;> simp [HszTrack.step]

/-- The call log of Connect on an available session. -/
theorem Connect_calls {W : Type} (T : Transport W) (C : Codec) (self : DynamicDataExchange)
    (w : W) (service topic : WString) (h : self.instance_ ≠ 0) :
    (Connect T C self w service topic).calls =
      (CreateStringHandle T C self w service).2.2 ++
      (CreateStringHandle T C self (CreateStringHandle T C self w service).2.1 topic).2.2 ++
      [Call.DdeConnect self.instance_ (CreateStringHandle T C self w service).1
        (CreateStringHandle T C self (CreateStringHandle T C self w service).2.1 topic).1
        (Connect T C self w service topic).obj.conversation_] ++
      (if (CreateStringHandle T C self (CreateStringHandle T C self w service).2.1 topic).1 = 0
        then []
        else [Call.DdeFreeStringHandle self.instance_
          (CreateStringHandle T C self (CreateStringHandle T C self w service).2.1 topic).1]) ++
      (if (CreateStringHandle T C self w service).1 = 0 then []
        else [Call.DdeFreeStringHandle self.instance_
          (CreateStringHandle T C self w service).1]) := by
  simp only [Connect, h, if_false, FreeStringHandle_calls]

/-- The call log of ClientTransaction. -/
theorem ClientTransaction_calls {W : Type} (T : Transport W) (C : Codec)
    (self : DynamicDataExchange) (w : W) (item data : WString) (output : Option WString)
    (wType : Nat) (stack : Bytes) :
    (ClientTransaction T C self w item data output wType stack).calls =
      (if wType ≠ XTYP_EXECUTE then (CreateStringHandle T C self w item).2.2 else []) ++
      [Call.DdeClientTransaction (pDataOf C self data) (cbDataOf self data) self.conversation_
        (if wType ≠ XTYP_EXECUTE then (CreateStringHandle T C self w item).1 else 0)
        (wFmtOf self) wType 3000
        (T.DdeClientTransaction
          (if wType ≠ XTYP_EXECUTE then (CreateStringHandle T C self w item).2.1 else w)
          (pDataOf C self data) (cbDataOf self data) self.conversation_
          (if wType ≠ XTYP_EXECUTE then (CreateStringHandle T C self w item).1 else 0)
          (wFmtOf self) wType 3000).1] ++
      (if (if wType ≠ XTYP_EXECUTE then (CreateStringHandle T C self w item).1 else 0) = 0
        then []
        else [Call.DdeFreeStringHandle self.instance_
          (if wType ≠ XTYP_EXECUTE then (CreateStringHandle T C self w item).1 else 0)]) ++
      (if output.isSome then
        [Call.DdeGetData
          (T.DdeClientTransaction
            (if wType ≠ XTYP_EXECUTE then (CreateStringHandle T C self w item).2.1 else w)
            (pDataOf C self data) (cbDataOf self data) self.conversation_
            (if wType ≠ XTYP_EXECUTE then (CreateStringHandle T C self w item).1 else 0)
            (wFmtOf self) wType 3000).1 255 0]
      else []) := by
  unfold ClientTransaction
  by_cases hx : wType = XTYP_EXECUTE <;> cases output <;>
    simp [hx, FreeStringHandle_calls]

/-- The call log of NameService. -/
theorem NameService_calls {W : Type} (T : Transport W) (C : Codec)
    (self : DynamicDataExchange) (w : W) (service : WString) (afCmd : Nat) :
    (NameService T C self w service afCmd).calls =
      (CreateStringHandle T C self w service).2.2 ++
      [Call.DdeNameService self.instance_ (CreateStringHandle T C self w service).1 0 afCmd
        (T.DdeNameService (CreateStringHandle T C self w service).2.1 self.instance_
          (CreateStringHandle T C self w service).1 0 afCmd).1] ++
      (if (CreateStringHandle T C self w service).1 = 0 then []
        else [Call.DdeFreeStringHandle self.instance_
          (CreateStringHandle T C self w service).1]) := by
  simp only [NameService, FreeStringHandle_calls]

/-- The check rejects a log that leaks a handle, one that frees before the
use, one that frees twice, and one that frees the null handle; it accepts the
well-formed log. -/
theorem hszDiscipline_examples :
    hszDiscipline [Call.DdeCreateStringHandleA 1 [] CP_WINANSI 5,
      Call.DdeNameService 1 5 0 1 1] = false ∧
    hszDiscipline [Call.DdeCreateStringHandleA 1 [] CP_WINANSI 5,
      Call.DdeFreeStringHandle 1 5, Call.DdeNameService 1 5 0 1 1] = false ∧
    hszDiscipline [Call.DdeCreateStringHandleA 1 [] CP_WINANSI 5,
      Call.DdeNameService 1 5 0 1 1, Call.DdeFreeStringHandle 1 5,
      Call.DdeFreeStringHandle 1 5] = false ∧
    hszDiscipline [Call.DdeCreateStringHandleA 0 [] CP_WINANSI 0,
      Call.DdeNameService 0 0 0 1 0, Call.DdeFreeStringHandle 0 0] = false ∧
    hszDiscipline [Call.DdeCreateStringHandleA 1 [] CP_WINANSI 5,
      Call.DdeNameService 1 5 0 1 1, Call.DdeFreeStringHandle 1 5] = true := by
  decide

/-- C10: in the calls made by one Connect, ClientTransaction or NameService,
whatever the transport answers, every non-null string handle returned by a
create call is freed exactly once, after the connect, transaction or name
service call that used it and before the operation returns, and no free is
issued for a null handle; ClientTransaction with XTYP_EXECUTE creates no
string handle and passes a null item handle to the transport. -/
theorem string_handle_discipline {W : Type} (T : Transport W) (C : Codec)
    (self : DynamicDataExchange) (w : W) (service topic item data : WString)
    (output : Option WString) (wType afCmd : Nat) (stack : Bytes) :
    hszDiscipline (Connect T C self w service topic).calls = true ∧
    hszDiscipline (ClientTransaction T C self w item data output wType stack).calls = true ∧
    hszDiscipline (NameService T C self w service afCmd).calls = true ∧
    (ClientTransaction T C self w item data output XTYP_EXECUTE stack).calls =
      [Call.DdeClientTransaction (pDataOf C self data) (cbDataOf self data) self.conversation_
        0 (wFmtOf self) XTYP_EXECUTE 3000
        (T.DdeClientTransaction w (pDataOf C self data) (cbDataOf self data)
          self.conversation_ 0 (wFmtOf self) XTYP_EXECUTE 3000).1] ++
      (if output.isSome then
        [Call.DdeGetData (T.DdeClientTransaction w (pDataOf C self data) (cbDataOf self data)
          self.conversation_ 0 (wFmtOf self) XTYP_EXECUTE 3000).1 255 0]
      else []) := by
  refine ⟨?_, ?_, ?_, ?_⟩
  · by_cases h : self.instance_ = 0
    · simp [Connect, h, hszDiscipline, HszTrack.steps]
    · rw [Connect_calls T C self w service topic h]
      obtain ⟨c1, hc1⟩ : ∃ c, (CreateStringHandle T C self w service).2.2 = [c] :=
        ⟨_, CreateStringHandle_calls T C self w service⟩
      obtain ⟨c2, hc2⟩ : ∃ c, (CreateStringHandle T C self
          (CreateStringHandle T C self w service).2.1 topic).2.2 = [c] :=
        ⟨_, CreateStringHandle_calls T C self _ topic⟩
      rw [hc1, hc2]
      apply hszDiscipline_two
      · exact HszTrack.step_create T C self w service [] false c1 hc1
      · exact HszTrack.step_create T C self _ topic _ false c2 hc2
      · intro l h1 h2
        simp [HszTrack.step, h1, h2]
  · rw [ClientTransaction_calls]
    apply hszDiscipline_one
    · by_cases hx : wType = XTYP_EXECUTE
      · simp [hx, HszTrack.steps]
      · obtain ⟨c1, hc1⟩ : ∃ c, (CreateStringHandle T C self w item).2.2 = [c] :=
          ⟨_, CreateStringHandle_calls T C self w item⟩
        simp only [hx, ne_eq, not_false_eq_true, if_true, hc1]
        rw [HszTrack.steps_cons_of_step _ (HszTrack.step_create T C self w item [] false c1 hc1)]
        simp [HszTrack.steps]
    · intro l h1
      simp only [HszTrack.step]
      rw [if_pos h1]
    · cases output <;> simp [HszTrack.steps, HszTrack.step]
  · rw [NameService_calls]
    have := hszDiscipline_one (CreateStringHandle T C self w service).2.2
      (Call.DdeNameService self.instance_ (CreateStringHandle T C self w service).1 0 afCmd
        (T.DdeNameService (CreateStringHandle T C self w service).2.1 self.instance_
          (CreateStringHandle T C self w service).1 0 afCmd).1)
      self.instance_ (CreateStringHandle T C self w service).1 []
    simp only [List.append_nil] at this
    apply this
    · obtain ⟨c1, hc1⟩ : ∃ c, (CreateStringHandle T C self w service).2.2 = [c] :=
        ⟨_, CreateStringHandle_calls T C self w service⟩
      rw [hc1, HszTrack.steps_cons_of_step _
        (HszTrack.step_create T C self w service [] false c1 hc1)]
      simp [HszTrack.steps]
    · intro l h1
      simp [HszTrack.step, h1]
    · simp [HszTrack.steps]
  · rw [ClientTransaction_calls]
    simp

/-! ### Connect -/

/-- C6: when the session is not available, Connect returns false at once: it
makes no transport call (no string handle is created or freed, no connect is
attempted) and leaves the adapter, its session handle included, and the
transport as they were. -/
theorem Connect_unavailable {W : Type} (T : Transport W) (C : Codec)
    (self : DynamicDataExchange) (w : W) (service topic : WString)
    (h : IsAvailable self = false) :
    (Connect T C self w service topic).ret = false ∧
    (Connect T C self w service topic).calls = [] ∧
    (Connect T C self w service topic).obj = self ∧
    (Connect T C self w service topic).obj.instance_ = self.instance_ ∧
    (Connect T C self w service topic).world = w := by
  have h0 : self.instance_ = 0 := by simpa [IsAvailable] using h
  simp [Connect, h0]

/-- Witness of C6: a freshly constructed adapter, asked to connect to service
"E" and topic "S". -/
theorem Connect_unavailable_witness :
    IsAvailable DynamicDataExchange.new = false ∧
    ((Connect (peer []) latin1 DynamicDataExchange.new () [69] [83]).ret = false ∧
    (Connect (peer []) latin1 DynamicDataExchange.new () [69] [83]).calls = [] ∧
    (Connect (peer []) latin1 DynamicDataExchange.new () [69] [83]).obj
      = DynamicDataExchange.new ∧
    (Connect (peer []) latin1 DynamicDataExchange.new () [69] [83]).obj.instance_
      = DynamicDataExchange.new.instance_ ∧
    (Connect (peer []) latin1 DynamicDataExchange.new () [69] [83]).world = ()) :=
  ⟨rfl, Connect_unavailable (peer []) latin1 DynamicDataExchange.new () [69] [83] rfl⟩

/-- C5, as stated, fails: after Initialize, a successful Connect and
UnInitialize (without Disconnect) the adapter still holds conversation 7; a
further Connect returns false, stores nothing, and the adapter holds
conversation 7 afterwards. -/
theorem Connect_false_keeps_conversation :
    run (peer []) latin1 () [Op.Initialize 0 false, Op.Connect [69] [83], Op.UnInitialize]
      = (⟨7, 0, false⟩, ()) ∧
    (Connect (peer []) latin1
      (run (peer []) latin1 ()
        [Op.Initialize 0 false, Op.Connect [69] [83], Op.UnInitialize]).1
      (run (peer []) latin1 ()
        [Op.Initialize 0 false, Op.Connect [69] [83], Op.UnInitialize]).2
      [69] [83]).ret = false ∧
    (Connect (peer []) latin1
      (run (peer []) latin1 ()
        [Op.Initialize 0 false, Op.Connect [69] [83], Op.UnInitialize]).1
      (run (peer []) latin1 ()
        [Op.Initialize 0 false, Op.Connect [69] [83], Op.UnInitialize]).2
      [69] [83]).obj.conversation_ = 7 := by
  decide

/-- C5, amended: in every state reachable through Initialize, UnInitialize,
Connect and Disconnect, whatever the transport answers, Connect returns true
exactly when it stored a non-null conversation handle answered by the
transport connect call; when Connect returns false and the session was
available or no conversation handle was held before, no conversation handle is
held afterwards; and when the session is not available the conversation handle
field is left as it was. -/
theorem Connect_ret_iff_stored {W : Type} (T : Transport W) (C : Codec) (w : W)
    (ops : List Op) (service topic : WString) :
    ((Connect T C (run T C w ops).1 (run T C w ops).2 service topic).ret = true ↔
      ∃ hszService hszTopic conv, conv ≠ 0 ∧
        Call.DdeConnect (run T C w ops).1.instance_ hszService hszTopic conv ∈
          (Connect T C (run T C w ops).1 (run T C w ops).2 service topic).calls ∧
        (Connect T C (run T C w ops).1 (run T C w ops).2 service topic).obj.conversation_
          = conv) ∧
    ((Connect T C (run T C w ops).1 (run T C w ops).2 service topic).ret = false →
      (IsAvailable (run T C w ops).1 = true ∨ (run T C w ops).1.conversation_ = 0) →
      (Connect T C (run T C w ops).1 (run T C w ops).2 service topic).obj.conversation_ = 0) ∧
    (IsAvailable (run T C w ops).1 = false →
      (Connect T C (run T C w ops).1 (run T C w ops).2 service topic).obj.conversation_
        = (run T C w ops).1.conversation_) := by
  generalize (run T C w ops).1 = self
  generalize (run T C w ops).2 = v
  by_cases h : self.instance_ = 0
  · have hc : Connect T C self v service topic = ⟨false, self, v, []⟩ := by
      simp [Connect, h]
    rw [hc]
    simp [IsAvailable, h]
  · have hret : (Connect T C self v service topic).ret
        = ((Connect T C self v service topic).obj.conversation_ != 0) := by
      simp [Connect, h]
    refine ⟨?_, ?_, ?_⟩
    · rw [hret]
      constructor
      · intro hne
        refine ⟨(CreateStringHandle T C self v service).1,
          (CreateStringHandle T C self (CreateStringHandle T C self v service).2.1 topic).1,
          (Connect T C self v service topic).obj.conversation_, ?_, ?_, rfl⟩
        · simpa using hne
        · rw [Connect_calls T C self v service topic h]
          simp
      · rintro ⟨_, _, conv, hne, _, hconv⟩
        simpa [hconv] using hne
    · intro hf _
      rw [hret] at hf
      simpa using hf
    · intro ha
      simp [IsAvailable, h] at ha

/-- Witness of the amended C5, against a peer that grants one conversation and
refuses the next.  After Initialize the session is available and Connect
returns true, having stored conversation 7 answered by the connect call.
After Initialize and that Connect the adapter holds conversation 7; a second
Connect reaches the transport, is refused, returns false, and no conversation
handle is held afterwards. -/
theorem Connect_ret_iff_stored_witness :
    ((Connect fickle latin1 (run fickle latin1 0 [Op.Initialize 0 false]).1
        (run fickle latin1 0 [Op.Initialize 0 false]).2 [69] [83]).ret = true ∧
      ∃ hszService hszTopic conv, conv ≠ 0 ∧
        Call.DdeConnect (run fickle latin1 0 [Op.Initialize 0 false]).1.instance_
            hszService hszTopic conv ∈
          (Connect fickle latin1 (run fickle latin1 0 [Op.Initialize 0 false]).1
            (run fickle latin1 0 [Op.Initialize 0 false]).2 [69] [83]).calls ∧
        (Connect fickle latin1 (run fickle latin1 0 [Op.Initialize 0 false]).1
          (run fickle latin1 0 [Op.Initialize 0 false]).2 [69] [83]).obj.conversation_
          = conv) ∧
    (Connect fickle latin1 (run fickle latin1 0 [Op.Initialize 0 false]).1
      (run fickle latin1 0 [Op.Initialize 0 false]).2 [69] [83]).obj.conversation_ = 7 ∧
    run fickle latin1 0 [Op.Initialize 0 false, Op.Connect [69] [83]] = (⟨7, 1, false⟩, 1) ∧
    (Connect fickle latin1 (run fickle latin1 0 [Op.Initialize 0 false, Op.Connect [69] [83]]).1
      (run fickle latin1 0 [Op.Initialize 0 false, Op.Connect [69] [83]]).2 [69] [83]).calls =
      [Call.DdeCreateStringHandleA 1 [69] CP_WINANSI 2,
       Call.DdeCreateStringHandleA 1 [83] CP_WINANSI 2,
       Call.DdeConnect 1 2 2 0,
       Call.DdeFreeStringHandle 1 2,
       Call.DdeFreeStringHandle 1 2] ∧
    (Connect fickle latin1 (run fickle latin1 0 [Op.Initialize 0 false, Op.Connect [69] [83]]).1
      (run fickle latin1 0 [Op.Initialize 0 false, Op.Connect [69] [83]]).2 [69] [83]).ret
      = false ∧
    (IsAvailable (run fickle latin1 0 [Op.Initialize 0 false, Op.Connect [69] [83]]).1 = true ∨
      (run fickle latin1 0 [Op.Initialize 0 false, Op.Connect [69] [83]]).1.conversation_ = 0) ∧
    (Connect fickle latin1 (run fickle latin1 0 [Op.Initialize 0 false, Op.Connect [69] [83]]).1
      (run fickle latin1 0 [Op.Initialize 0 false, Op.Connect [69] [83]]).2
      [69] [83]).obj.conversation_ = 0 :=
  ⟨⟨by decide,
      (Connect_ret_iff_stored fickle latin1 0 [Op.Initialize 0 false] [69] [83]).1.mp
        (by decide)⟩,
    by decide, by decide, by decide, by decide, Or.inl (by decide),
    (Connect_ret_iff_stored fickle latin1 0 [Op.Initialize 0 false, Op.Connect [69] [83]]
      [69] [83]).2.1 (by decide) (Or.inl (by decide))⟩

/-! ### ClientTransaction -/

/-- C1, evaluated on adapters that hold no conversation handle, against a
peer that rejects a null conversation.  On an initialised, never connected
adapter a request for item "R" makes three transport calls, the transaction
call among them with a null conversation handle.  On a freshly constructed
adapter the same request calls the transport on instance 0.  With an output
requested the null data handle is read as well and the text of the caller,
here "A", is replaced by what the uninitialised result array happens to hold,
here the bytes 07 07 07.  The result is false each time. -/
theorem ClientTransaction_not_connected_calls :
    (DynamicDataExchange.mk 0 1 false).conversation_ = 0 ∧
    (ClientTransaction (peer []) latin1 ⟨0, 1, false⟩ () [82] [] none XTYP_REQUEST []).calls =
      [Call.DdeCreateStringHandleA 1 [82] CP_WINANSI 2,
       Call.DdeClientTransaction [0] 1 0 2 CF_TEXT XTYP_REQUEST 3000 0,
       Call.DdeFreeStringHandle 1 2] ∧
    (ClientTransaction (peer []) latin1 ⟨0, 1, false⟩ () [82] [] none XTYP_REQUEST []).calls
      ≠ [] ∧
    (ClientTransaction (peer []) latin1 ⟨0, 1, false⟩ () [82] [] none XTYP_REQUEST []).ret.1
      = false ∧
    DynamicDataExchange.new.conversation_ = 0 ∧
    (ClientTransaction (peer []) latin1 DynamicDataExchange.new () [82] [] none XTYP_REQUEST
      []).calls =
      [Call.DdeCreateStringHandleA 0 [82] CP_WINANSI 0,
       Call.DdeClientTransaction [0] 1 0 0 CF_TEXT XTYP_REQUEST 3000 0] ∧
    (ClientTransaction (peer []) latin1 ⟨0, 1, false⟩ () [82] [] (some [0x41]) XTYP_REQUEST
      [7, 7, 7, 0]).calls =
      [Call.DdeCreateStringHandleA 1 [82] CP_WINANSI 2,
       Call.DdeClientTransaction [0] 1 0 2 CF_TEXT XTYP_REQUEST 3000 0,
       Call.DdeFreeStringHandle 1 2,
       Call.DdeGetData 0 255 0] ∧
    (ClientTransaction (peer []) latin1 ⟨0, 1, false⟩ () [82] [] (some [0x41]) XTYP_REQUEST
      [7, 7, 7, 0]).ret = (false, some [7, 7, 7]) := by
  decide

/-- ClientTransaction has no early return: when no conversation handle is
held it still issues the transaction call to the transport, with the null
conversation handle, returns true exactly when the transport answered that
call with a non-null data handle, hence false whenever the transport rejects a
null conversation, and leaves the adapter fields as they were. -/
theorem ClientTransaction_without_conversation {W : Type} (T : Transport W) (C : Codec)
    (self : DynamicDataExchange) (w : W) (item data : WString) (output : Option WString)
    (wType : Nat) (stack : Bytes) (h : self.conversation_ = 0) :
    (∃ (w1 : W) (hszItem : HSZ),
      Call.DdeClientTransaction (pDataOf C self data) (cbDataOf self data) 0 hszItem
          (wFmtOf self) wType 3000
          (T.DdeClientTransaction w1 (pDataOf C self data) (cbDataOf self data) 0 hszItem
            (wFmtOf self) wType 3000).1 ∈
        (ClientTransaction T C self w item data output wType stack).calls ∧
      ((ClientTransaction T C self w item data output wType stack).ret.1 = true ↔
        (T.DdeClientTransaction w1 (pDataOf C self data) (cbDataOf self data) 0 hszItem
          (wFmtOf self) wType 3000).1 ≠ 0)) ∧
    ((∀ (w1 : W) (pData : Bytes) (cbData : Nat) (hszItem : HSZ) (wFmt wType1 dwTimeout : Nat),
        (T.DdeClientTransaction w1 pData cbData 0 hszItem wFmt wType1 dwTimeout).1 = 0) →
      (ClientTransaction T C self w item data output wType stack).ret.1 = false) ∧
    (ClientTransaction T C self w item data output wType stack).obj = self := by
  have hret : (ClientTransaction T C self w item data output wType stack).ret.1 =
      ((T.DdeClientTransaction
          (if wType ≠ XTYP_EXECUTE then (CreateStringHandle T C self w item).2.1 else w)
          (pDataOf C self data) (cbDataOf self data) 0
          (if wType ≠ XTYP_EXECUTE then (CreateStringHandle T C self w item).1 else 0)
          (wFmtOf self) wType 3000).1 != 0) := by
    unfold ClientTransaction
    by_cases hx : wType = XTYP_EXECUTE <;> cases output <;> simp [hx, h]
  refine ⟨⟨if wType ≠ XTYP_EXECUTE then (CreateStringHandle T C self w item).2.1 else w,
      if wType ≠ XTYP_EXECUTE then (CreateStringHandle T C self w item).1 else 0, ?_, ?_⟩,
    ?_, ?_⟩
  · rw [ClientTransaction_calls, h]
    simp
  · rw [hret]
    simp
  · intro hrej
    rw [hret, hrej]
    rfl
  · unfold ClientTransaction
    cases output <;> rfl

/-- The initialised, never connected adapter against the peer that rejects a
null conversation: the result is false and the adapter is unchanged. -/
theorem ClientTransaction_without_conversation_witness :
    (DynamicDataExchange.mk 0 1 false).conversation_ = 0 ∧
    (∀ (w1 : Unit) (pData : Bytes) (cbData : Nat) (hszItem : HSZ) (wFmt wType1 dwTimeout : Nat),
      ((peer []).DdeClientTransaction w1 pData cbData 0 hszItem wFmt wType1 dwTimeout).1 = 0) ∧
    (ClientTransaction (peer []) latin1 ⟨0, 1, false⟩ () [82] [] none XTYP_REQUEST []).ret.1
      = false ∧
    (ClientTransaction (peer []) latin1 ⟨0, 1, false⟩ () [82] [] none XTYP_REQUEST []).obj
      = ⟨0, 1, false⟩ :=
  ⟨rfl, fun _ _ _ _ _ _ _ => rfl,
    (ClientTransaction_without_conversation (peer []) latin1 ⟨0, 1, false⟩ () [82] [] none
      XTYP_REQUEST [] rfl).2.1 (fun _ _ _ _ _ _ _ => rfl),
    (ClientTransaction_without_conversation (peer []) latin1 ⟨0, 1, false⟩ () [82] [] none
      XTYP_REQUEST [] rfl).2.2⟩

/-- What ClientTransaction passes as length and format: the format tag follows
the text mode, and the length is computed from the number of wide units of
`data` in both modes, as a 32-bit value. -/
theorem ClientTransaction_length_and_format (self : DynamicDataExchange) (data : WString) :
    (self.is_unicode_ = true →
      cbDataOf self data = ((data.length + 1) * 2) % 2 ^ 32 ∧ wFmtOf self = CF_UNICODETEXT) ∧
    (self.is_unicode_ = false →
      cbDataOf self data = (data.length + 1) % 2 ^ 32 ∧ wFmtOf self = CF_TEXT) := by
  constructor <;> intro h <;> simp [cbDataOf, wFmtOf, h, sizeofWCHAR]

/-- C4, evaluated in narrow mode with UTF-8 text helpers on the payload "é"
(one wide unit, two narrow bytes): the transport is handed the three bytes
C3 A9 00 with the narrow text format and a length of 2, where the narrow
payload with its terminator is 3 bytes long. -/
theorem ClientTransaction_narrow_length :
    utf8.WstrToStr [0xE9] = [0xC3, 0xA9] ∧
    (utf8.WstrToStr [0xE9]).length + 1 = 3 ∧
    (ClientTransaction (peer []) utf8 ⟨7, 1, false⟩ () [82] [0xE9] none XTYP_POKE []).calls =
      [Call.DdeCreateStringHandleA 1 [82] CP_WINANSI 2,
       Call.DdeClientTransaction [0xC3, 0xA9, 0] 2 7 2 CF_TEXT XTYP_POKE 3000 9,
       Call.DdeFreeStringHandle 1 2] := by
  decide

/-- C2, evaluated in wide mode: the peer answers a request with the wide text
"AB", the six bytes 41 00 42 00 00 00.  Whatever the text helpers and the
stack hold, the result is read as a narrow C string, which ends at the second
byte: the output is the narrow decoding of the single byte 41. -/
theorem ClientTransaction_wide_result (C : Codec) (stack : Bytes) :
    wideBytes [0x41, 0x42] ++ [0, 0] = [0x41, 0, 0x42, 0, 0, 0] ∧
    (ClientTransaction (peer [0x41, 0, 0x42, 0, 0, 0]) C ⟨7, 1, true⟩ () [82] [] (some [])
      XTYP_REQUEST stack).ret = (true, some (C.StrToWstr [0x41])) ∧
    (ClientTransaction (peer [0x41, 0, 0x42, 0, 0, 0]) latin1 ⟨7, 1, true⟩ () [82] []
      (some []) XTYP_REQUEST stack).ret = (true, some [0x41]) := by
  have key : ∀ C : Codec,
      (ClientTransaction (peer [0x41, 0, 0x42, 0, 0, 0]) C ⟨7, 1, true⟩ () [82] [] (some [])
        XTYP_REQUEST stack).ret = (true, some (C.StrToWstr [0x41])) := by
    intro C
    simp [ClientTransaction, peer, szResultOf, cstr, XTYP_REQUEST, XTYP_EXECUTE,
      CreateStringHandle, FreeStringHandle, List.takeWhile]
  exact ⟨by decide, key C, key latin1⟩

/-- The memory at `szResult` after reading from the peer a data object that
starts with 255 bytes `p`: these 255 bytes, then what lay behind the array. -/
theorem szResultOf_long (p rest stack : Bytes) (hp : p.length = 255) :
    szResultOf (peer (p ++ rest)) () 9 stack = p ++ stack.drop 255 := by
  have hgot : ((peer (p ++ rest)).DdeGetData () 9 255 0).1.take 255 = p := by
    have h1 : ((peer (p ++ rest)).DdeGetData () 9 255 0).1 = (p ++ rest).take 255 := by
      simp [peer]
    rw [h1, List.take_left' hp, ← hp, List.take_length]
  unfold szResultOf
  rw [hgot, hp]

/-- The result of a narrow-mode request answered by the peer with a data
object that starts with 255 non-zero bytes `p`: the decoder receives `p`
followed by the bytes behind the array up to the next zero. -/
theorem ClientTransaction_long (C : Codec) (p rest stack : Bytes) (hp : p.length = 255)
    (hnz : ∀ a ∈ p, a ≠ 0) :
    (ClientTransaction (peer (p ++ rest)) C ⟨7, 1, false⟩ () [82] [] (some [])
      XTYP_REQUEST stack).ret = (true, some (C.StrToWstr (p ++ cstr (stack.drop 255)))) := by
  have hcstr : cstr (p ++ stack.drop 255) = p ++ cstr (stack.drop 255) := by
    unfold cstr
    rw [List.takeWhile_append_of_pos]
    intro a ha
    simpa using hnz a ha
  have hd : ∀ (pData : Bytes) (cbData : Nat) (hsz : HSZ) (wFmt : Nat),
      ((peer (p ++ rest)).DdeClientTransaction () pData cbData 7 hsz wFmt XTYP_REQUEST 3000).1
        = 9 := fun _ _ _ _ => rfl
  have hx : XTYP_REQUEST ≠ XTYP_EXECUTE := by decide
  simp only [ClientTransaction, hx, ne_eq, not_false_eq_true, if_true, hd]
  rw [szResultOf_long p rest stack hp, hcstr]
  rfl

/-- C3, evaluated in narrow mode: the peer answers a request with 255 bytes 41
followed by a terminator.  The 255-byte result array then holds the first 255
payload bytes, not 254 bytes and a terminator; the decoder, reading a C
string, receives all 255 of them followed by whatever lies behind the array up
to the next zero byte. -/
theorem ClientTransaction_long_result (C : Codec) (stack : Bytes) :
    (szResultOf (peer (List.replicate 255 0x41 ++ [0])) () 9 stack).take 255
      = List.replicate 255 0x41 ∧
    (szResultOf (peer (List.replicate 255 0x41 ++ [0])) () 9 stack).take 255
      ≠ List.replicate 254 0x41 ++ [0] ∧
    (ClientTransaction (peer (List.replicate 255 0x41 ++ [0])) C ⟨7, 1, false⟩ () [82] []
      (some []) XTYP_REQUEST stack).ret
      = (true, some (C.StrToWstr (List.replicate 255 0x41 ++ cstr (stack.drop 255)))) ∧
    (ClientTransaction (peer (List.replicate 255 0x41 ++ [0])) latin1 ⟨7, 1, false⟩ () [82] []
      (some []) XTYP_REQUEST (List.replicate 255 0 ++ [0x42, 0x43, 0])).ret
      = (true, some (List.replicate 255 0x41 ++ [0x42, 0x43])) := by
  have hlen : (List.replicate 255 0x41 : Bytes).length = 255 := List.length_replicate ..
  have hnz : ∀ a ∈ (List.replicate 255 0x41 : Bytes), a ≠ 0 := by
    intro a ha
    rw [List.eq_of_mem_replicate ha]
    decide
  have htake : (szResultOf (peer (List.replicate 255 0x41 ++ [0])) () 9 stack).take 255
      = List.replicate 255 0x41 := by
    rw [szResultOf_long _ _ _ hlen]
    exact List.take_left' hlen
  refine ⟨htake, ?_, ClientTransaction_long C _ _ stack hlen hnz, ?_⟩
  · rw [htake]
    intro hEq
    have h0 : (0 : Nat) ∈ (List.replicate 254 0x41 ++ [0] : Bytes) :=
      List.mem_append_right _ (List.mem_singleton_self 0)
    rw [← hEq] at h0
    exact absurd (List.eq_of_mem_replicate h0) (by decide)
  · rw [ClientTransaction_long latin1 _ _ _ hlen hnz]
    have hdrop : (List.replicate 255 0 ++ [0x42, 0x43, 0] : Bytes).drop 255 = [0x42, 0x43, 0] :=
      List.drop_left' (List.length_replicate ..)
    have hc : cstr [0x42, 0x43, 0] = [0x42, 0x43] := by decide
    rw [hdrop, hc]
    rfl

/-! ### NameService -/

/-- C7, evaluated on a freshly constructed adapter: with no session handle
held, NameService for service "R" with the register command still calls the
transport twice, to create a string handle and to register the name, both on
instance 0; and in every state, against every transport, its call log is not
empty. -/
theorem NameService_uninitialized_calls :
    IsAvailable DynamicDataExchange.new = false ∧
    (NameService (peer []) latin1 DynamicDataExchange.new () [82] 1).calls =
      [Call.DdeCreateStringHandleA 0 [82] CP_WINANSI 0, Call.DdeNameService 0 0 0 1 0] ∧
    (∀ (W : Type) (T : Transport W) (C : Codec) (self : DynamicDataExchange) (w : W)
      (service : WString) (afCmd : Nat),
      Call.DdeNameService self.instance_ (CreateStringHandle T C self w service).1 0 afCmd
          (T.DdeNameService (CreateStringHandle T C self w service).2.1 self.instance_
            (CreateStringHandle T C self w service).1 0 afCmd).1 ∈
        (NameService T C self w service afCmd).calls) := by
  refine ⟨rfl, by decide, ?_⟩
  intro W T C self w service afCmd
  rw [NameService_calls]
  simp

end win
